import Mathlib

set_option maxRecDepth 10000

/-!
Shallow embedding of the dengue/climate report generator (`src/app.py`).

The embedding models, faithfully to the source:
* the literal dengue case table and its wide-to-long reshape
  (`pd.melt(dengue_df, id_vars=["Year"], ...)` followed by the
  `month_mapping` translation of month labels to numbers);
* date parsing and the monthly aggregation `process_monthly_data`
  (including its in-place mutation of the argument frame);
* the left outer join `pd.merge(monthly_data, dengue_df, on=["Year","Month"],
  how="left")`;
* the post-join threshold filter on `monthly_data` and the yearly
  aggregation `year_avg` computed from `final_df`;
* the NASA POWER fetch (`fetch_nasa_data`) with its HTTP-status check,
  shape check and per-parameter availability warnings, and the top-level
  try/except pipeline.

Machine floats of the source are modelled as exact rationals (ℚ); the
pandas missing value (NaN) arising from an unmatched join key or an
unmapped month label is modelled as `Option`.
-/

/-! ### The literal dengue case table (`dengue_data`, src/app.py lines 68-83) -/

/-- Column `Year` of the literal table `dengue_data`. -/
def dengue_years : List ℤ :=
  [2013, 2014, 2015, 2016, 2017, 2018, 2019, 2020, 2021, 2022, 2023]

/-- The non-`Year` columns of the literal table `dengue_data`, in source
order: the twelve month columns followed by `Total`.  These are exactly the
columns `pd.melt` treats as value columns when `id_vars=["Year"]`. -/
def dengue_value_cols : List (String × List ℤ) :=
  [("Jan", [0, 0, 0, 0, 1, 1, 0, 0, 0, 0, 0]),
   ("Feb", [0, 0, 0, 0, 0, 0, 0, 0, 0, 0, 0]),
   ("Mar", [0, 0, 1, 2, 0, 0, 0, 0, 1, 2, 1]),
   ("Apr", [0, 0, 0, 5, 0, 2, 0, 0, 0, 0, 1]),
   ("May", [0, 0, 2, 13, 0, 2, 1, 0, 0, 0, 3]),
   ("Jun", [0, 0, 2, 7, 0, 1, 2, 0, 0, 5, 9]),
   ("Jul", [1, 2, 0, 7, 0, 14, 27, 1, 2, 9, 25]),
   ("Aug", [1, 2, 55, 22, 6, 9, 684, 4, 12, 420, 148]),
   ("Sep", [36, 51, 813, 412, 135, 98, 4686, 16, 420, 1912, 1044]),
   ("Oct", [396, 907, 2317, 2053, 386, 444, 5581, 13, 2126, 2106, 1112]),
   ("Nov", [408, 479, 603, 770, 122, 142, 961, 0, 948, 565, 361]),
   ("Dec", [19, 15, 124, 16, 1, 4, 0, 4, 17, 20, 34]),
   ("Total", [861, 1456, 3917, 3307, 651, 717, 11942, 38, 3526, 5039, 2738])]

/-- One long-form record produced by `pd.melt`: the retained `Year`, the
melted column label (in column `Month`), and the cell value (in column
`Dengue Cases`). -/
structure MeltedRecord where
  year : ℤ
  monthLabel : String
  cases : ℤ
deriving DecidableEq, Repr

/-- The long-form table produced by
`pd.melt(dengue_df, id_vars=["Year"], var_name="Month", value_name="Dengue Cases")`
(src/app.py line 87): for each value column in order, one record per year.
Note that `pd.melt` melts every non-id column, `Total` included. -/
def dengue_melted : List MeltedRecord :=
  dengue_value_cols.flatMap fun c => (dengue_years.zip c.2).map fun p => ⟨p.1, c.1, p.2⟩

/-- The fixed month-name-to-number mapping (src/app.py lines 90-93).
`Series.map` with a dict yields NaN for a key absent from the dict, which is
modelled by `none`. -/
def month_mapping (s : String) : Option ℕ :=
  if s = "Jan" then some 1 else if s = "Feb" then some 2
  else if s = "Mar" then some 3 else if s = "Apr" then some 4
  else if s = "May" then some 5 else if s = "Jun" then some 6
  else if s = "Jul" then some 7 else if s = "Aug" then some 8
  else if s = "Sep" then some 9 else if s = "Oct" then some 10
  else if s = "Nov" then some 11 else if s = "Dec" then some 12
  else none

/-- The twelve month abbreviations appearing as keys of `month_mapping`. -/
def monthAbbrevs : List String :=
  ["Jan", "Feb", "Mar", "Apr", "May", "Jun", "Jul", "Aug", "Sep", "Oct", "Nov", "Dec"]

/-- A row of the reshaped dengue table after
`dengue_df["Month"] = dengue_df["Month"].map(month_mapping)`
(src/app.py line 94): the month label replaced by its number, or NaN
(`none`) when the label is not in the mapping. -/
structure DengueRow where
  year : ℤ
  month : Option ℕ
  cases : ℤ
deriving DecidableEq, Repr

/-- The reshaped dengue table `dengue_df` in its final form (src/app.py
lines 86-94). -/
def dengue_df : List DengueRow :=
  dengue_melted.map fun r => ⟨r.year, month_mapping r.monthLabel, r.cases⟩

example : dengue_melted.length = 143 := by decide
example : dengue_df.length = 143 := by decide
example : (⟨2013, "Total", 861⟩ : MeltedRecord) ∈ dengue_melted := by decide
example : (⟨2019, some 7, 27⟩ : DengueRow) ∈ dengue_df := by decide
example : (⟨2019, none, 11942⟩ : DengueRow) ∈ dengue_df := by decide

/-! ### The climate frame and `process_monthly_data` (src/app.py lines 60-65) -/

/-- A cell of the `Date` column: either the raw string from the API
response, or the value after `pd.to_datetime` has parsed it into a
calendar date. -/
inductive DateCell where
  | raw (s : String)
  | parsed (y : ℤ) (m : ℕ) (d : ℕ)
deriving DecidableEq, Repr

/-- A row of the climate DataFrame handed to `process_monthly_data`:
the `Date` cell, the `Year`/`Month` columns when present (`none` before
they are assigned), and the numeric climate columns (`T2M`,
`PRECTOTCORR`, ... in request order). -/
structure CRow where
  date : DateCell
  year : Option ℤ
  month : Option ℕ
  values : List ℚ
deriving DecidableEq, Repr

/-- Fold a digit string into a number. -/
def digitsToNat (cs : List Char) : ℕ :=
  cs.foldl (fun a c => a * 10 + (c.toNat - 48)) 0

/-- Parse a `YYYYMMDD` date string as `pd.to_datetime` does, extracting
(year, month, day); `none` models the parse raising. -/
def parseYMD (s : String) : Option (ℤ × ℕ × ℕ) :=
  let cs := s.toList
  if cs.length == 8 && cs.all Char.isDigit then
    let y : ℤ := (digitsToNat (cs.take 4) : ℤ)
    let m := digitsToNat ((cs.drop 4).take 2)
    let d := digitsToNat (cs.drop 6)
    if 1 ≤ m ∧ m ≤ 12 ∧ 1 ≤ d ∧ d ≤ 31 then some (y, m, d) else none
  else none

/-- Interpret a `Date` cell with `pd.to_datetime`: a raw string is parsed,
an already-parsed datetime is left as is. -/
def parseCell : DateCell → Option (ℤ × ℕ × ℕ)
  | .raw s => parseYMD s
  | .parsed y m d => some (y, m, d)

/-- One row's effect of the three assignments in `process_monthly_data`:
`data["Date"] = pd.to_datetime(data["Date"])`,
`data["Year"] = data["Date"].dt.year`,
`data["Month"] = data["Date"].dt.month`.  Returns the mutated row together
with its (Year, Month) group key; `none` models `pd.to_datetime` raising. -/
def parseRow (r : CRow) : Option (CRow × ℤ × ℕ) :=
  (parseCell r.date).map fun v =>
    ({ r with date := .parsed v.1 v.2.1 v.2.2, year := some v.1, month := some v.2.1 },
     v.1, v.2.1)

/-- Apply `parseRow` to every row; the whole column assignment fails if any
single date is unparseable (the pandas exception propagates). -/
def parseAll : List CRow → Option (List (CRow × ℤ × ℕ))
  | [] => some []
  | r :: t =>
    match parseRow r, parseAll t with
    | some p, some pt => some (p :: pt)
    | _, _ => none

/-- Insert a (year, month) key into a lexicographically sorted list. -/
def insertPair (a : ℤ × ℕ) : List (ℤ × ℕ) → List (ℤ × ℕ)
  | [] => [a]
  | b :: t => if a.1 < b.1 ∨ (a.1 = b.1 ∧ a.2 ≤ b.2) then a :: b :: t else b :: insertPair a t

/-- Sort (year, month) keys lexicographically ascending, as
`DataFrame.groupby` (with its default `sort=True`) orders the groups. -/
def sortPairs : List (ℤ × ℕ) → List (ℤ × ℕ)
  | [] => []
  | a :: t => insertPair a (sortPairs t)

/-- Columnwise sum of equal-length numeric rows. -/
def colSum : List (List ℚ) → List ℚ
  | [] => []
  | [v] => v
  | v :: rest => List.zipWith (· + ·) v (colSum rest)

/-- Columnwise arithmetic mean of a group of numeric rows (`.mean()`). -/
def colMean (g : List (List ℚ)) : List ℚ :=
  (colSum g).map fun x => x / (g.length : ℚ)

/-- A row of the monthly aggregate `monthly_avg`: the group keys restored
as columns by `reset_index()`, plus the per-column means.  Non-numeric
columns do not survive the grouped mean, so only the numeric climate
columns appear. -/
structure MonthlyRow where
  year : ℤ
  month : ℕ
  means : List ℚ
deriving DecidableEq, Repr

/-- Grouped mean over key/values pairs:
`data.groupby(["Year", "Month"]).mean().reset_index()` — one output row
per distinct (Year, Month) key, keys sorted ascending, each row holding
the columnwise mean of its group. -/
def aggregateKV (kvs : List ((ℤ × ℕ) × List ℚ)) : List MonthlyRow :=
  (sortPairs (kvs.map Prod.fst).dedup).map fun k =>
    ⟨k.1, k.2, colMean ((kvs.filter fun p => p.1 == k).map Prod.snd)⟩

/-- Group key and values of a parsed row, as used by the aggregation. -/
def keyVals (p : CRow × ℤ × ℕ) : (ℤ × ℕ) × List ℚ :=
  ((p.2.1, p.2.2), p.1.values)

/-- The monthly aggregation `process_monthly_data` (src/app.py lines
60-65).  The three column assignments mutate the argument frame in place,
so the result carries both the mutated frame (what the caller's variable
refers to afterwards) and the returned `monthly_avg`; `none` models the
date parse raising. -/
def process_monthly_data (data : List CRow) : Option (List CRow × List MonthlyRow) :=
  match parseAll data with
  | none => none
  | some parsed => some (parsed.map Prod.fst, aggregateKV (parsed.map keyVals))

/-- Group key and values extracted directly from an unprocessed row
(`none` when its date does not parse); used to state properties of
`process_monthly_data` in terms of its input. -/
def rowKV (r : CRow) : Option ((ℤ × ℕ) × List ℚ) :=
  (parseCell r.date).map fun v => ((v.1, v.2.1), r.values)

/-- The numeric rows of the input frame falling in a given (year, month)
group. -/
def groupOf (data : List CRow) (k : ℤ × ℕ) : List (List ℚ) :=
  ((data.filterMap rowKV).filter fun p => p.1 == k).map Prod.snd

example :
    process_monthly_data [⟨.raw "20190715", none, none, [30, 5]⟩] =
      some ([⟨.parsed 2019 7 15, some 2019, some 7, [30, 5]⟩],
        [⟨2019, 7, [30, 5]⟩]) := by
  have h : parseYMD "20190715" = some (2019, 7, 15) := by decide
  simp [process_monthly_data, parseAll, parseRow, parseCell, h, aggregateKV, keyVals,
    sortPairs, insertPair, colMean, colSum]

/-! ### The left outer join (src/app.py line 124) and its consumers -/

/-- A row of `final_df = pd.merge(monthly_data, dengue_df, on=["Year","Month"], how="left")`:
the aggregate row's keys and means, plus the attached `Dengue Cases` value
(`none` models the NaN of an unmatched left row). -/
structure JoinedRow where
  year : ℤ
  month : ℕ
  means : List ℚ
  cases : Option ℤ
deriving DecidableEq, Repr

/-- The case rows matching a given aggregate key: the merge compares the
`Year` columns and the `Month` columns for equality.  The aggregate side's
month is an integer, the case side's month may be NaN (`none`), which
equals no integer. -/
def matchingCases (right : List DengueRow) (y : ℤ) (m : ℕ) : List DengueRow :=
  right.filter fun r => r.year == y && r.month == some m

/-- Output of the merge for one left row: emitted once per matching right
row, and once with NaN cases when no right row matches. -/
def mergeRow (right : List DengueRow) (l : MonthlyRow) : List JoinedRow :=
  match matchingCases right l.year l.month with
  | [] => [⟨l.year, l.month, l.means, none⟩]
  | ms => ms.map fun r => ⟨l.year, l.month, l.means, some r.cases⟩

/-- The left outer join
`pd.merge(monthly_data, dengue_df, on=["Year","Month"], how="left")`. -/
def merge_left (left : List MonthlyRow) (right : List DengueRow) : List JoinedRow :=
  left.flatMap (mergeRow right)

/-- The case count the join attaches to an aggregate key: the first
matching case row's value, or `none` when no case row matches. -/
def caseLookup (right : List DengueRow) (y : ℤ) (m : ℕ) : Option ℤ :=
  match matchingCases right y m with
  | [] => none
  | r :: _ => some r.cases

/-- The `T2M` column of an aggregate row (first requested parameter). -/
def t2mOf (r : MonthlyRow) : ℚ := r.means.getD 0 0

/-- The `PRECTOTCORR` column of an aggregate row (second requested
parameter). -/
def prectOf (r : MonthlyRow) : ℚ := r.means.getD 1 0

/-- The post-join threshold filter (src/app.py lines 129-130):
`monthly_data = monthly_data[monthly_data["T2M"] >= -5]` then
`monthly_data = monthly_data[monthly_data["PRECTOTCORR"] >= 0]`.
It reassigns `monthly_data` only; `final_df` is untouched. -/
def filter_monthly (monthly : List MonthlyRow) : List MonthlyRow :=
  (monthly.filter fun r => (-5 : ℚ) ≤ t2mOf r).filter fun r => (0 : ℚ) ≤ prectOf r

/-- Insert a year into a sorted list of years. -/
def insertYear (a : ℤ) : List ℤ → List ℤ
  | [] => [a]
  | b :: t => if a ≤ b then a :: b :: t else b :: insertYear a t

/-- Sort years ascending, as `groupby("Year")` orders its groups. -/
def sortYears : List ℤ → List ℤ
  | [] => []
  | a :: t => insertYear a (sortYears t)

/-- The `T2M` column of a joined row. -/
def jt2m (j : JoinedRow) : ℚ := j.means.getD 0 0

/-- The `PRECTOTCORR` column of a joined row. -/
def jprect (j : JoinedRow) : ℚ := j.means.getD 1 0

/-- The yearly overview (src/app.py line 154):
`final_df.groupby("Year").agg({"T2M": "mean", "PRECTOTCORR": "mean", "Dengue Cases": "sum"}).reset_index()`.
Note it aggregates `final_df`, not the filtered `monthly_data`; the pandas
`sum` skips NaN, modelled by summing over `filterMap (·.cases)`. -/
def year_avg (final : List JoinedRow) : List (ℤ × ℚ × ℚ × ℤ) :=
  (sortYears (final.map (·.year)).dedup).map fun y =>
    let g := final.filter fun j => j.year == y
    (y, ((g.map jt2m).sum) / (g.length : ℚ), ((g.map jprect).sum) / (g.length : ℚ),
     (g.filterMap (·.cases)).sum)

/-! ### The NASA POWER fetch (src/app.py lines 26-57) and the top-level
pipeline (lines 110-176) -/

/-- The parsed JSON payload of a successful response, reduced to the part
the program reads: `data["properties"]["parameter"]`, a mapping from
variable code to its date-to-value series. -/
structure NasaJson where
  parameter : List (String × List (String × ℚ))
deriving Repr

/-- An HTTP response as `fetch_nasa_data` observes it: status code, raw
body text, and the parsed JSON when it has the expected nested structure
(`none` models `"properties"`/`"parameter"` being absent). -/
structure HTTPResponse where
  status : ℕ
  text : String
  json : Option NasaJson
deriving Repr

/-- The exceptions `fetch_nasa_data` raises (src/app.py lines 39 and 43). -/
inductive FetchError where
  | httpError (status : ℕ) (body : String)
  | shapeError
deriving DecidableEq, Repr

/-- The successful result of `fetch_nasa_data`: one (code, series) entry
per requested code present in the response, plus one warning per requested
code that is absent (`st.warning`, non-fatal). -/
structure FetchOutput where
  series : List (String × List (String × ℚ))
  warnings : List String
deriving Repr

/-- The fetch `fetch_nasa_data` (src/app.py lines 26-57), given the
response the one `requests.get` round trip produced: a non-200 status
raises carrying the status and body; a malformed body raises the shape
error; otherwise each requested parameter is looked up in the response's
parameter mapping, absent ones producing a warning instead of an entry. -/
def fetch_nasa_data (resp : HTTPResponse) (parameters : List String) :
    Except FetchError FetchOutput :=
  if resp.status ≠ 200 then
    .error (.httpError resp.status resp.text)
  else
    match resp.json with
    | none => .error .shapeError
    | some data =>
      .ok { series := parameters.filterMap fun p =>
              (data.parameter.lookup p).map fun s => (p, s),
            warnings := parameters.filter fun p => (data.parameter.lookup p).isNone }

/-- The message text of a raised fetch exception (`str(e)`). -/
def errText : FetchError → String
  | .httpError s b => "Error fetching data: " ++ toString s ++ " - " ++ b
  | .shapeError => "No climate data found for the given parameters."

/-- The parameters requested by the run (src/app.py line 106). -/
def pipeline_params : List String := ["T2M", "PRECTOTCORR"]

/-- Alignment of the per-parameter frames (src/app.py line 117):
`pd.concat(all_data, axis=1)` aligns rows positionally on the shared
RangeIndex, and the duplicate `Date` columns are dropped keeping the
first.  Row `i` of the combined frame holds the first series' `i`-th date
and every series' `i`-th value. -/
def combined_rows (series : List (String × List (String × ℚ))) : List CRow :=
  match series with
  | [] => []
  | (_, s0) :: rest =>
    (List.range s0.length).map fun i =>
      ⟨.raw (s0.getD i ("", 0)).1, none, none,
       (s0.getD i ("", 0)).2 :: rest.map fun pr => (pr.2.getD i ("", 0)).2⟩

/-- Outcome of the guarded pipeline: either the single `st.error` message
of the except-branch, or the joined `final_df`. -/
inductive RunResult where
  | errorMsg (msg : String)
  | ok (final_df : List JoinedRow)
deriving Repr

/-- The try/except block around the pipeline (src/app.py lines 110-176):
fetch, combine, aggregate, then left-join with the dengue table; any
raised exception is caught once and surfaced as the single message
`st.error(f"Error fetching data: {e}")`, and neither the aggregation nor
the join runs after a fetch failure. -/
def run_pipeline (resp : HTTPResponse) : RunResult :=
  match fetch_nasa_data resp pipeline_params with
  | .error e => .errorMsg ("Error fetching data: " ++ errText e)
  | .ok out =>
    match process_monthly_data (combined_rows out.series) with
    | none => .errorMsg ("Error fetching data: unparseable date")
    | some (_, monthly) => .ok (merge_left monthly dengue_df)

/-! ### Helper lemmas -/

/-- A list of length at most one is nil or a singleton. -/
theorem length_le_one_cases {α : Type} (l : List α) (h : l.length ≤ 1) :
    l = [] ∨ ∃ a, l = [a] := by
  match l with
  | [] => exact Or.inl rfl
  | [a] => exact Or.inr ⟨a, rfl⟩
  | a :: b :: t => exact absurd h (by simp [List.length_cons])

/-- Filtering by a key predicate keeps at most one element when the keys
of the list are pairwise distinct. -/
theorem filter_key_len_le_one {α β : Type} [DecidableEq β] (f : α → β) (p : α → Bool)
    (b : β) (hp : ∀ a, p a = true ↔ f a = b) (l : List α) (h : (l.map f).Nodup) :
    (l.filter p).length ≤ 1 := by
  induction l with
  | nil => simp
  | cons a t ih =>
    rw [List.map_cons, List.nodup_cons] at h
    by_cases hpa : p a = true
    · have hfa : f a = b := (hp a).mp hpa
      have ht : t.filter p = [] := by
        rw [List.filter_eq_nil_iff]
        intro x hx hpx
        have hfx : f x = f a := by rw [(hp x).mp hpx, hfa]
        exact h.1 (by rw [← hfx]; exact List.mem_map_of_mem f hx)
      rw [List.filter_cons_of_pos hpa, ht]
      simp
    · rw [List.filter_cons_of_neg (by simpa using hpa)]
      exact ih h.2

/-- Inserting into a sorted key list is a permutation of consing. -/
theorem insertPair_perm (a : ℤ × ℕ) (l : List (ℤ × ℕ)) : (insertPair a l).Perm (a :: l) := by
  induction l with
  | nil => simp [insertPair]
  | cons b t ih =>
    rw [insertPair]
    by_cases hc : a.1 < b.1 ∨ (a.1 = b.1 ∧ a.2 ≤ b.2)
    · rw [if_pos hc]
    · rw [if_neg hc]
      exact (ih.cons b).trans (List.Perm.swap a b t)

/-- Sorting the key list permutes it. -/
theorem sortPairs_perm (l : List (ℤ × ℕ)) : (sortPairs l).Perm l := by
  induction l with
  | nil => simp [sortPairs]
  | cons a t ih => exact (insertPair_perm a (sortPairs t)).trans (ih.cons a)

/-- A successfully parsed row carries the same key and values whether read
off the parse result or the original row. -/
theorem parseRow_keyVals {r : CRow} {p : CRow × ℤ × ℕ} (h : parseRow r = some p) :
    rowKV r = some (keyVals p) := by
  rw [parseRow, Option.map_eq_some'] at h
  obtain ⟨v, hv, hp⟩ := h
  subst hp
  simp [rowKV, hv, keyVals]

/-- A successfully parsed row has its `Year` and `Month` columns assigned
and its `Date` cell replaced by the parsed date. -/
theorem parseRow_fields {r : CRow} {p : CRow × ℤ × ℕ} (h : parseRow r = some p) :
    p.1.year = some p.2.1 ∧ p.1.month = some p.2.2 ∧
      ∃ d, p.1.date = DateCell.parsed p.2.1 p.2.2 d ∧ p.1.values = r.values := by
  rw [parseRow, Option.map_eq_some'] at h
  obtain ⟨v, _, hp⟩ := h
  subst hp
  exact ⟨rfl, rfl, v.2.2, rfl, rfl⟩

/-- The parsed list's key/value view is exactly the input's key/value
view. -/
theorem parseAll_keyVals {data : List CRow} {parsed : List (CRow × ℤ × ℕ)}
    (h : parseAll data = some parsed) :
    parsed.map keyVals = data.filterMap rowKV := by
  induction data generalizing parsed with
  | nil =>
    rw [parseAll] at h
    cases h
    simp
  | cons r t ih =>
    rw [parseAll] at h
    cases hr : parseRow r with
    | none => rw [hr] at h; cases h
    | some p =>
      cases ht : parseAll t with
      | none => rw [hr, ht] at h; cases h
      | some pt =>
        rw [hr, ht] at h
        cases h
        rw [List.map_cons, List.filterMap_cons, parseRow_keyVals hr, ih ht]

/-- Every row of the parsed list has `Year`/`Month` assigned and a parsed
date. -/
theorem parseAll_fields {data : List CRow} {parsed : List (CRow × ℤ × ℕ)}
    (h : parseAll data = some parsed) :
    ∀ p ∈ parsed, p.1.year = some p.2.1 ∧ p.1.month = some p.2.2 ∧
      ∃ d, p.1.date = DateCell.parsed p.2.1 p.2.2 d := by
  induction data generalizing parsed with
  | nil =>
    rw [parseAll] at h
    cases h
    intro p hp
    cases hp
  | cons r t ih =>
    rw [parseAll] at h
    cases hr : parseRow r with
    | none => rw [hr] at h; cases h
    | some p0 =>
      cases ht : parseAll t with
      | none => rw [hr, ht] at h; cases h
      | some pt =>
        rw [hr, ht] at h
        cases h
        intro p hp
        rcases List.mem_cons.mp hp with hp | hp
        · subst hp
          obtain ⟨h1, h2, d, h3, _⟩ := parseRow_fields hr
          exact ⟨h1, h2, d, h3⟩
        · exact ih ht p hp

/-- Parsing succeeds on the whole frame exactly when every row's date
parses. -/
theorem parseAll_isSome_iff (data : List CRow) :
    (parseAll data).isSome ↔ ∀ r ∈ data, (parseCell r.date).isSome := by
  induction data with
  | nil => simp [parseAll]
  | cons r t ih =>
    rw [parseAll]
    constructor
    · intro h
      cases hr : parseRow r with
      | none => rw [hr] at h; cases ht : parseAll t <;> rw [ht] at h <;> simp at h
      | some p =>
        cases ht : parseAll t with
        | none => rw [hr, ht] at h; simp at h
        | some pt =>
          intro x hx
          rcases List.mem_cons.mp hx with hx | hx
          · subst hx
            rw [parseRow] at hr
            cases hc : parseCell x.date with
            | none => rw [hc] at hr; cases hr
            | some v => simp
          · exact (ih.mp (by rw [ht]; simp)) x hx
    · intro h
      have hr : (parseRow r).isSome := by
        rw [parseRow]
        cases hc : parseCell r.date with
        | none =>
          have := h r (List.mem_cons_self r t)
          rw [hc] at this
          cases this
        | some v => simp
      have ht : (parseAll t).isSome := ih.mpr fun x hx => h x (List.mem_cons_of_mem r hx)
      cases hr' : parseRow r with
      | none => rw [hr'] at hr; cases hr
      | some p =>
        cases ht' : parseAll t with
        | none => rw [ht'] at ht; cases ht
        | some pt => simp

/-- The keys of the grouped mean are the sorted deduplicated input keys. -/
theorem aggregateKV_keys (kvs : List ((ℤ × ℕ) × List ℚ)) :
    (aggregateKV kvs).map (fun o => (o.year, o.month)) =
      sortPairs (kvs.map Prod.fst).dedup := by
  rw [aggregateKV, List.map_map]
  have hcomp : ((fun o : MonthlyRow => (o.year, o.month)) ∘ fun k : ℤ × ℕ =>
      (⟨k.1, k.2, colMean ((kvs.filter fun p => p.1 == k).map Prod.snd)⟩ : MonthlyRow)) =
      fun k => k := by
    funext k
    simp
  rw [hcomp, List.map_id']

/-- Membership in the aggregate's keys is membership in the input's keys. -/
theorem aggregateKV_mem_keys (kvs : List ((ℤ × ℕ) × List ℚ)) (k : ℤ × ℕ) :
    k ∈ (aggregateKV kvs).map (fun o => (o.year, o.month)) ↔ k ∈ kvs.map Prod.fst := by
  rw [aggregateKV_keys]
  rw [(sortPairs_perm _).mem_iff]
  exact List.mem_dedup

/-- Each aggregate row's means are the columnwise sum of its group divided
by the group size, and its group is nonempty. -/
theorem aggregateKV_means (kvs : List ((ℤ × ℕ) × List ℚ)) (o : MonthlyRow)
    (ho : o ∈ aggregateKV kvs) :
    (o.year, o.month) ∈ kvs.map Prod.fst ∧
      o.means = colMean ((kvs.filter fun p => p.1 == (o.year, o.month)).map Prod.snd) := by
  rw [aggregateKV] at ho
  obtain ⟨k, hk, rfl⟩ := List.mem_map.mp ho
  constructor
  · show k ∈ kvs.map Prod.fst
    exact List.mem_dedup.mp ((sortPairs_perm _).mem_iff.mp hk)
  · rfl

/-- Columnwise mean of a single row is that row. -/
theorem colMean_singleton (v : List ℚ) : colMean [v] = v := by
  simp [colMean, colSum]

/-- The (Year, Month) keys of the reshaped dengue table are pairwise
distinct: each of the thirteen melted columns contributes one row per
year. -/
theorem dengue_keys_nodup : (dengue_df.map fun r => (r.year, r.month)).Nodup := by decide

/-- The join's match set for any aggregate key holds at most one dengue
row. -/
theorem matchingCases_len_le_one (y : ℤ) (m : ℕ) :
    (matchingCases dengue_df y m).length ≤ 1 := by
  refine filter_key_len_le_one (fun r => (r.year, r.month)) _ (y, some m) ?_ _ dengue_keys_nodup
  intro r
  rw [Bool.and_eq_true, beq_iff_eq, beq_iff_eq, Prod.mk.injEq]

/-- Merging one aggregate row against the dengue table emits exactly that
row, with the case count of its unique match attached when one exists. -/
theorem mergeRow_dengue (l : MonthlyRow) :
    mergeRow dengue_df l = [⟨l.year, l.month, l.means, caseLookup dengue_df l.year l.month⟩] := by
  rcases length_le_one_cases _ (matchingCases_len_le_one l.year l.month) with h | ⟨r, h⟩ <;>
    simp [mergeRow, caseLookup, h]

/-! ### The claims -/

/-- C1: for every run in which the fetch succeeds, merging the monthly
climate aggregate with the reshaped case records on (Year, Month) is a
left outer join: every aggregate row appears exactly once in the output
(in order), a matching case row attaches its case count, and an aggregate
row with no matching case row appears with an absent (`none`) case count —
never an error and never a dropped row. -/
theorem C1_left_outer_join (left : List MonthlyRow) :
    merge_left left dengue_df =
      left.map (fun l => ⟨l.year, l.month, l.means, caseLookup dengue_df l.year l.month⟩) ∧
    (∀ y m, caseLookup dengue_df y m = none ↔ matchingCases dengue_df y m = []) ∧
    (∀ y m c, caseLookup dengue_df y m = some c ↔
      ∃ r ∈ dengue_df, r.year = y ∧ r.month = some m ∧ r.cases = c) := by
  refine ⟨?_, ?_, ?_⟩
  · induction left with
    | nil => rfl
    | cons l t ih =>
      rw [merge_left, List.flatMap_cons, mergeRow_dengue, List.map_cons, ← merge_left, ih]
      rfl
  · intro y m
    cases h : matchingCases dengue_df y m with
    | nil => simp [caseLookup, h]
    | cons r t => simp [caseLookup, h]
  · intro y m c
    constructor
    · intro h
      cases hm : matchingCases dengue_df y m with
      | nil => rw [caseLookup, hm] at h; cases h
      | cons r t =>
        rw [caseLookup, hm] at h
        have hr : r ∈ matchingCases dengue_df y m := by rw [hm]; exact List.mem_cons_self r t
        have hmem := List.mem_filter.mp hr
        have hcond := hmem.2
        rw [Bool.and_eq_true, beq_iff_eq, beq_iff_eq] at hcond
        exact ⟨r, hmem.1, hcond.1, hcond.2, Option.some.inj h⟩
    · rintro ⟨r, hr, hy, hm, hc⟩
      have hmem : r ∈ matchingCases dengue_df y m := by
        refine List.mem_filter.mpr ⟨hr, ?_⟩
        rw [Bool.and_eq_true, beq_iff_eq, beq_iff_eq]
        exact ⟨hy, hm⟩
      rcases length_le_one_cases _ (matchingCases_len_le_one y m) with h | ⟨a, h⟩
      · rw [h] at hmem; cases hmem
      · rw [h] at hmem
        rcases List.mem_singleton.mp hmem with rfl
        rw [caseLookup, h]
        show some r.cases = some c
        rw [hc]

/-- C2 counterexample: reshaping the literal table does NOT produce
11 × 12 records — `pd.melt` with `id_vars=["Year"]` melts the `Total`
column too, so 143 records are produced, among them the reshaped `Total`
cell of 2013. -/
theorem C2_counterexample :
    dengue_melted.length = 143 ∧ (⟨2013, "Total", 861⟩ : MeltedRecord) ∈ dengue_melted ∧
      ¬ dengue_melted.length = 11 * 12 := by decide

/-- C2 (amended): reshaping the fixed literal dengue table melts every
non-`Year` column including `Total`, producing number_of_years × 13 = 143
case records: exactly 11 × 12 of them carry one of the twelve month
labels, and the remaining 11 are reshaped `Total` cells. -/
theorem C2_melt_shape :
    dengue_melted.length = 11 * 13 ∧
    (dengue_melted.filter fun r => !(r.monthLabel == "Total")).length = 11 * 12 ∧
    (dengue_melted.filter fun r => r.monthLabel == "Total").length = 11 := by decide

/-- C3: for every year in the literal dengue table, the sum of its twelve
monthly case counts equals that year's value in the `Total` column (here:
for every reshaped `Total` record, the non-`Total` records of its year sum
to its value). -/
theorem C3_year_totals : ∀ r ∈ dengue_melted, r.monthLabel = "Total" →
    ((dengue_melted.filter fun x => x.year == r.year && !(x.monthLabel == "Total")).map
      (fun x => x.cases)).sum = r.cases := by decide

/-- C3 witness: the 2019 months sum to the 2019 total, 11942. -/
theorem C3_year_totals_witness :
    ((dengue_melted.filter fun x => x.year == (2019 : ℤ) && !(x.monthLabel == "Total")).map
      (fun x => x.cases)).sum = (11942 : ℤ) :=
  C3_year_totals ⟨2019, "Total", 11942⟩ (by decide) rfl

/-- C4: for every climate table with parseable dates, the monthly
aggregation succeeds, groups rows by the (year, month) derived from each
date, emits exactly one output row per distinct (year, month) pair (the
output keys are pairwise distinct and are exactly the distinct input
keys), restores the group keys as columns, and each row's means are the
columnwise arithmetic mean (sum divided by group size) of the numeric
columns of its group; non-numeric columns do not survive into the
output. -/
theorem C4_monthly_aggregation (data : List CRow)
    (hparse : ∀ r ∈ data, (parseCell r.date).isSome) :
    ∃ mutated out, process_monthly_data data = some (mutated, out) ∧
      (out.map fun o => (o.year, o.month)).Nodup ∧
      (∀ k : ℤ × ℕ, (k ∈ out.map fun o => (o.year, o.month)) ↔
        k ∈ (data.filterMap rowKV).map Prod.fst) ∧
      ∀ o ∈ out, groupOf data (o.year, o.month) ≠ [] ∧
        o.means = (colSum (groupOf data (o.year, o.month))).map
          (fun x => x / ((groupOf data (o.year, o.month)).length : ℚ)) := by
  have hsome : (parseAll data).isSome := (parseAll_isSome_iff data).mpr hparse
  obtain ⟨parsed, hp⟩ := Option.isSome_iff_exists.mp hsome
  have hkv : parsed.map keyVals = data.filterMap rowKV := parseAll_keyVals hp
  refine ⟨parsed.map Prod.fst, aggregateKV (parsed.map keyVals), ?_, ?_, ?_, ?_⟩
  · rw [process_monthly_data, hp]
  · rw [aggregateKV_keys]
    exact (sortPairs_perm _).nodup_iff.mpr (List.nodup_dedup _)
  · intro k
    rw [aggregateKV_mem_keys, hkv]
  · intro o ho
    obtain ⟨hmem, hmeans⟩ := aggregateKV_means _ o ho
    rw [hkv] at hmem hmeans
    constructor
    · obtain ⟨p, hpl, hpk⟩ := List.mem_map.mp hmem
      have : p ∈ (data.filterMap rowKV).filter fun q => q.1 == (o.year, o.month) :=
        List.mem_filter.mpr ⟨hpl, by rw [beq_iff_eq, hpk]⟩
      intro hnil
      rw [groupOf] at hnil
      rw [List.map_eq_nil_iff.mp hnil] at this
      cases this
    · rw [hmeans, groupOf, colMean]

/-- C4 witness: two July 2019 observations aggregate into a single
(2019, 7) row whose means are the columnwise averages. -/
theorem C4_monthly_aggregation_witness :
    (∀ r ∈ ([⟨.raw "20190715", none, none, [30, 5]⟩,
             ⟨.raw "20190716", none, none, [32, 7]⟩] : List CRow),
       (parseCell r.date).isSome) ∧
    (∃ mutated out,
      process_monthly_data
          ([⟨.raw "20190715", none, none, [30, 5]⟩,
            ⟨.raw "20190716", none, none, [32, 7]⟩] : List CRow) = some (mutated, out) ∧
      (out.map fun o => (o.year, o.month)).Nodup ∧
      (∀ k : ℤ × ℕ, (k ∈ out.map fun o => (o.year, o.month)) ↔
        k ∈ (([⟨.raw "20190715", none, none, [30, 5]⟩,
               ⟨.raw "20190716", none, none, [32, 7]⟩] : List CRow).filterMap rowKV).map
              Prod.fst) ∧
      ∀ o ∈ out,
        groupOf ([⟨.raw "20190715", none, none, [30, 5]⟩,
                  ⟨.raw "20190716", none, none, [32, 7]⟩] : List CRow)
            (o.year, o.month) ≠ [] ∧
        o.means = (colSum (groupOf ([⟨.raw "20190715", none, none, [30, 5]⟩,
                  ⟨.raw "20190716", none, none, [32, 7]⟩] : List CRow) (o.year, o.month))).map
          (fun x => x / ((groupOf ([⟨.raw "20190715", none, none, [30, 5]⟩,
                  ⟨.raw "20190716", none, none, [32, 7]⟩] : List CRow)
              (o.year, o.month)).length : ℚ))) :=
  ⟨by decide, C4_monthly_aggregation _ (by decide)⟩

/-- C8: for every climate table containing at most one row per
(year, month), the monthly aggregation is the identity on the numeric
columns: each output row's mean values equal the single matching input
row's own values. -/
theorem C8_single_row_identity (data : List CRow) (mutated : List CRow)
    (out : List MonthlyRow) (h : process_monthly_data data = some (mutated, out))
    (hnodup : ((data.filterMap rowKV).map Prod.fst).Nodup) :
    ∀ o ∈ out, ∃ r ∈ data, rowKV r = some ((o.year, o.month), r.values) ∧
      o.means = r.values := by
  rw [process_monthly_data] at h
  cases hp : parseAll data with
  | none => rw [hp] at h; cases h
  | some parsed =>
    rw [hp] at h
    cases h
    have hkv : parsed.map keyVals = data.filterMap rowKV := parseAll_keyVals hp
    intro o ho
    obtain ⟨hmem, hmeans⟩ := aggregateKV_means _ o ho
    rw [hkv] at hmem hmeans
    obtain ⟨p, hpl, hpk⟩ := List.mem_map.mp hmem
    have hpf : p ∈ (data.filterMap rowKV).filter fun q => q.1 == (o.year, o.month) :=
      List.mem_filter.mpr ⟨hpl, by rw [beq_iff_eq, hpk]⟩
    have hle : ((data.filterMap rowKV).filter fun q => q.1 == (o.year, o.month)).length ≤ 1 :=
      filter_key_len_le_one Prod.fst _ (o.year, o.month) (fun a => beq_iff_eq) _ hnodup
    rcases length_le_one_cases _ hle with hnil | ⟨a, ha⟩
    · rw [hnil] at hpf; cases hpf
    · rw [ha] at hpf
      rcases List.mem_singleton.mp hpf with rfl
      rw [ha, List.map_singleton, colMean_singleton] at hmeans
      obtain ⟨r, hr, hrkv⟩ := List.mem_filterMap.mp hpl
      refine ⟨r, hr, ?_, ?_⟩
      · have hval : p.2 = r.values := by
          rw [rowKV] at hrkv
          rcases Option.map_eq_some'.mp hrkv with ⟨v, _, hv⟩
          rw [← hv]
        rw [hrkv, ← hpk, ← hval]
      · rw [hmeans]
        rw [rowKV] at hrkv
        rcases Option.map_eq_some'.mp hrkv with ⟨v, _, hv⟩
        rw [← hv]

/-- C8 witness: a one-row July 2019 table aggregates to exactly its own
values. -/
theorem C8_single_row_identity_witness :
    process_monthly_data ([⟨.raw "20190715", none, none, [30, 5]⟩] : List CRow) =
      some ([⟨.parsed 2019 7 15, some 2019, some 7, [30, 5]⟩], [⟨2019, 7, [30, 5]⟩]) ∧
    ((([⟨.raw "20190715", none, none, [30, 5]⟩] : List CRow).filterMap rowKV).map
      Prod.fst).Nodup ∧
    ∃ r ∈ ([⟨.raw "20190715", none, none, [30, 5]⟩] : List CRow),
      rowKV r = some ((((2019 : ℤ), 7) : ℤ × ℕ), r.values) ∧ ([30, 5] : List ℚ) = r.values := by
  have hymd : parseYMD "20190715" = some (2019, 7, 15) := by decide
  have hp : process_monthly_data ([⟨.raw "20190715", none, none, [30, 5]⟩] : List CRow) =
      some ([⟨.parsed 2019 7 15, some 2019, some 7, [30, 5]⟩], [⟨2019, 7, [30, 5]⟩]) := by
    simp [process_monthly_data, parseAll, parseRow, parseCell, hymd, aggregateKV, keyVals,
      sortPairs, insertPair, colMean, colSum]
  refine ⟨hp, ?_, ?_⟩
  · simp [rowKV, parseCell, hymd]
  · have := C8_single_row_identity _ _ _ hp (by simp [rowKV, parseCell, hymd])
      ⟨2019, 7, [30, 5]⟩ (List.mem_singleton.mpr rfl)
    exact this

/-- C9: the monthly aggregation mutates its argument in place: after
`process_monthly_data(data)` returns, the frame the caller passed has been
given `Year` and `Month` columns and its `Date` column has been replaced
by parsed dates — so a frame that lacked a `Year` column is not left
unchanged by the stage. -/
theorem C9_mutates_argument (data mutated : List CRow) (out : List MonthlyRow)
    (h : process_monthly_data data = some (mutated, out))
    (r : CRow) (hr : r ∈ data) (hy : r.year = none) :
    mutated ≠ data ∧
      ∀ x ∈ mutated, x.year ≠ none ∧ x.month ≠ none ∧
        ∃ y m d, x.date = DateCell.parsed y m d := by
  rw [process_monthly_data] at h
  cases hp : parseAll data with
  | none => rw [hp] at h; cases h
  | some parsed =>
    rw [hp] at h
    cases h
    have hall : ∀ x ∈ parsed.map Prod.fst, x.year ≠ none ∧ x.month ≠ none ∧
        ∃ y m d, x.date = DateCell.parsed y m d := by
      intro x hx
      obtain ⟨p, hpl, hpx⟩ := List.mem_map.mp hx
      obtain ⟨h1, h2, d, h3⟩ := parseAll_fields hp p hpl
      subst hpx
      refine ⟨?_, ?_, p.2.1, p.2.2, d, h3⟩
      · rw [h1]
        intro hcon
        cases hcon
      · rw [h2]
        intro hcon
        cases hcon
    refine ⟨?_, hall⟩
    intro heq
    have := (hall r (by rw [heq]; exact hr)).1
    exact this hy

/-- C9 witness: a frame holding one raw-dated row without `Year`/`Month`
columns is visibly mutated by the aggregation. -/
theorem C9_mutates_argument_witness :
    ([⟨.parsed 2019 7 15, some 2019, some 7, [30, 5]⟩] : List CRow) ≠
      ([⟨.raw "20190715", none, none, [30, 5]⟩] : List CRow) ∧
    ∀ x ∈ ([⟨.parsed 2019 7 15, some 2019, some 7, [30, 5]⟩] : List CRow),
      x.year ≠ none ∧ x.month ≠ none ∧ ∃ y m d, x.date = DateCell.parsed y m d := by
  have hymd : parseYMD "20190715" = some (2019, 7, 15) := by decide
  have hp : process_monthly_data ([⟨.raw "20190715", none, none, [30, 5]⟩] : List CRow) =
      some ([⟨.parsed 2019 7 15, some 2019, some 7, [30, 5]⟩], [⟨2019, 7, [30, 5]⟩]) := by
    simp [process_monthly_data, parseAll, parseRow, parseCell, hymd, aggregateKV, keyVals,
      sortPairs, insertPair, colMean, colSum]
  exact C9_mutates_argument _ _ _ hp ⟨.raw "20190715", none, none, [30, 5]⟩
    (List.mem_singleton.mpr rfl) rfl

/-- C5: for every fetch invocation returning a non-200 HTTP status, the
fetcher fails with an error carrying the response status and the raw
response body, and the guarded pipeline surfaces the single `st.error`
message and performs no aggregation and no join — it never produces a
joined frame. -/
theorem C5_non200_aborts (resp : HTTPResponse) (h : resp.status ≠ 200) :
    fetch_nasa_data resp pipeline_params =
      .error (.httpError resp.status resp.text) ∧
    run_pipeline resp =
      .errorMsg ("Error fetching data: " ++ errText (.httpError resp.status resp.text)) ∧
    ∀ final, run_pipeline resp ≠ .ok final := by
  have hf : fetch_nasa_data resp pipeline_params =
      .error (.httpError resp.status resp.text) := by
    rw [fetch_nasa_data, if_pos h]
  refine ⟨hf, ?_, ?_⟩
  · rw [run_pipeline, hf]
  · intro final hcon
    rw [run_pipeline, hf] at hcon
    cases hcon

/-- C5 witness: a 404 response aborts the pipeline with the single error
message carrying the status and body. -/
theorem C5_non200_aborts_witness :
    fetch_nasa_data ⟨404, "Not Found", none⟩ pipeline_params =
      .error (.httpError 404 "Not Found") ∧
    run_pipeline ⟨404, "Not Found", none⟩ =
      .errorMsg ("Error fetching data: " ++ errText (.httpError 404 "Not Found")) ∧
    ∀ final, run_pipeline ⟨404, "Not Found", none⟩ ≠ .ok final :=
  C5_non200_aborts ⟨404, "Not Found", none⟩ (by decide)

/-- The codes of the fetched series are exactly the requested codes whose
lookup in the response succeeds. -/
theorem map_fst_filterMap_lookup {β : Type} (f : String → Option β) (params : List String) :
    (params.filterMap fun p => (f p).map fun s => (p, s)).map Prod.fst =
      params.filter fun p => (f p).isSome := by
  induction params with
  | nil => rfl
  | cons a t ih =>
    cases h : f a with
    | none => simp [List.filterMap_cons, h, List.filter_cons, ih]
    | some s => simp [List.filterMap_cons, h, List.filter_cons, ih]

/-- C6: for every fetch invocation whose response is well-shaped (status
200, expected nested structure) but lacks some requested variable code,
the call does not fail: it returns a result whose series cover exactly the
present codes (one entry per present code, in request order), a warning is
surfaced for each absent code, and each absent code's series is omitted
from the result mapping. -/
theorem C6_missing_param_warns (resp : HTTPResponse) (params : List String) (j : NasaJson)
    (h200 : resp.status = 200) (hjson : resp.json = some j) :
    ∃ out, fetch_nasa_data resp params = .ok out ∧
      out.series.map Prod.fst = params.filter (fun p => (j.parameter.lookup p).isSome) ∧
      out.warnings = params.filter (fun p => (j.parameter.lookup p).isNone) ∧
      (∀ p ∈ params, (j.parameter.lookup p).isNone → p ∉ out.series.map Prod.fst) ∧
      (∀ p ∈ params, (j.parameter.lookup p).isSome → p ∈ out.series.map Prod.fst) := by
  have hf : fetch_nasa_data resp params =
      .ok { series := params.filterMap fun p => (j.parameter.lookup p).map fun s => (p, s),
            warnings := params.filter fun p => (j.parameter.lookup p).isNone } := by
    rw [fetch_nasa_data, if_neg (by rw [h200]; exact fun hcon => hcon rfl), hjson]
  refine ⟨_, hf, map_fst_filterMap_lookup _ _, rfl, ?_, ?_⟩
  · intro p hp hnone hcon
    rw [map_fst_filterMap_lookup] at hcon
    have := (List.mem_filter.mp hcon).2
    rw [Option.isNone_iff_eq_none.mp hnone] at this
    cases this
  · intro p hp hsome
    rw [map_fst_filterMap_lookup]
    exact List.mem_filter.mpr ⟨hp, hsome⟩

/-- C6 witness: requesting `T2M` and `PRECTOTCORR` against a response
holding only `T2M` warns about `PRECTOTCORR` and returns only the `T2M`
series. -/
theorem C6_missing_param_warns_witness :
    ∃ out, fetch_nasa_data ⟨200, "", some ⟨[("T2M", [("20190715", 30)])]⟩⟩
        ["T2M", "PRECTOTCORR"] = .ok out ∧
      out.series.map Prod.fst = (["T2M", "PRECTOTCORR"].filter fun p =>
        ((⟨[("T2M", [("20190715", 30)])]⟩ : NasaJson).parameter.lookup p).isSome) ∧
      out.warnings = (["T2M", "PRECTOTCORR"].filter fun p =>
        ((⟨[("T2M", [("20190715", 30)])]⟩ : NasaJson).parameter.lookup p).isNone) ∧
      (∀ p ∈ ["T2M", "PRECTOTCORR"],
        ((⟨[("T2M", [("20190715", 30)])]⟩ : NasaJson).parameter.lookup p).isNone →
          p ∉ out.series.map Prod.fst) ∧
      (∀ p ∈ ["T2M", "PRECTOTCORR"],
        ((⟨[("T2M", [("20190715", 30)])]⟩ : NasaJson).parameter.lookup p).isSome →
          p ∈ out.series.map Prod.fst) :=
  C6_missing_param_warns ⟨200, "", some ⟨[("T2M", [("20190715", 30)])]⟩⟩
    ["T2M", "PRECTOTCORR"] ⟨[("T2M", [("20190715", 30)])]⟩ rfl rfl

/-- C7: evaluation of the code at a failing input.  The claim says that
after the post-join filtering step, rows with temperature below −5 or
precipitation below 0 are excluded from the later visual aggregates; but
the source filters only the `monthly_data` copy (after `final_df` has
already been built from it), and the later figures are computed from the
unfiltered `final_df`.  At a (2019, 7) aggregate row with T2M = −10: the
filter does drop it from `monthly_data`, yet it reaches `final_df` and the
yearly overview `year_avg` still contains its −10 temperature. -/
theorem C7_filter_bypasses_final :
    filter_monthly [⟨2019, 7, [-10, 5]⟩] = [] ∧
    merge_left [⟨2019, 7, [-10, 5]⟩] dengue_df = [⟨2019, 7, [-10, 5], some 27⟩] ∧
    year_avg [⟨2019, 7, [-10, 5], some 27⟩] = [(2019, -10, 5, 27)] := by
  have hm : matchingCases dengue_df 2019 7 = [⟨2019, some 7, 27⟩] := by decide
  refine ⟨?_, ?_, ?_⟩
  · norm_num [filter_monthly, t2mOf]
  · simp [merge_left, mergeRow, hm]
  · norm_num [year_avg, sortYears, insertYear, jt2m, jprect, List.filterMap_cons,
      List.filterMap_nil]

/-- C10: every reshaped case record whose month label is not one of the
twelve month abbreviations (in particular the `Total` rows) carries a null
month number, null-month rows never belong to the join's match set of any
(Year, Month) aggregate key, and every case count appearing in the joined
output comes from a case row whose month number equals the aggregate
row's month — so null-month rows contribute no case count. -/
theorem C10_null_months_never_join :
    (∀ r ∈ dengue_melted, r.monthLabel ∉ monthAbbrevs → month_mapping r.monthLabel = none) ∧
    (∀ (y : ℤ) (m : ℕ) (r : DengueRow), r ∈ matchingCases dengue_df y m → r.month ≠ none) ∧
    (∀ (left : List MonthlyRow) (j : JoinedRow), j ∈ merge_left left dengue_df →
      ∀ c, j.cases = some c →
        ∃ r ∈ dengue_df, r.month = some j.month ∧ r.year = j.year ∧ r.cases = c) := by
  refine ⟨by decide, ?_, ?_⟩
  · intro y m r hr
    have hcond := (List.mem_filter.mp hr).2
    rw [Bool.and_eq_true, beq_iff_eq, beq_iff_eq] at hcond
    rw [hcond.2]
    intro hcon
    cases hcon
  · intro left j hj c hc
    obtain ⟨l, hl, hjl⟩ := List.mem_flatMap.mp hj
    rw [mergeRow] at hjl
    cases hm : matchingCases dengue_df l.year l.month with
    | nil =>
      rw [hm] at hjl
      rcases List.mem_singleton.mp hjl with rfl
      cases hc
    | cons a t =>
      rw [hm] at hjl
      obtain ⟨r, hrmem, hrj⟩ := List.mem_map.mp hjl
      have hr : r ∈ matchingCases dengue_df l.year l.month := by
        rw [hm]
        exact hrmem
      have hmem := List.mem_filter.mp hr
      have hcond := hmem.2
      rw [Bool.and_eq_true, beq_iff_eq, beq_iff_eq] at hcond
      subst hrj
      exact ⟨r, hmem.1, hcond.2, hcond.1, Option.some.inj hc⟩

/-- C10 witness: the `Total` label maps to a null month, and the case
count joined onto the (2019, 7) aggregate key comes from the dengue row
with month number 7. -/
theorem C10_null_months_never_join_witness :
    month_mapping "Total" = none ∧
    ∃ r ∈ dengue_df, r.month = some (7 : ℕ) ∧ r.year = (2019 : ℤ) ∧ r.cases = (27 : ℤ) := by
  constructor
  · exact C10_null_months_never_join.1 ⟨2013, "Total", 861⟩ (by decide) (by decide)
  · exact C10_null_months_never_join.2.2 [⟨2019, 7, []⟩] ⟨2019, 7, [], some 27⟩
      (by decide) 27 rfl


